import Mathlib

/-!
Verification development for the `avail` utility (src/avail.py).

The program queries six operating-system documentation corpora (Linux,
FreeBSD, Solaris, Plan 9, POSIX.7, AIX) for a command name, extracts the
set of documented option flags per platform, and reports which of the
user's requested flags are undocumented on each platform.

Shallow embedding conventions:
- Python strings are `List Char` (abbreviated `Str`); Python sets of
  strings are `Finset Str`.
- Python `None` for an absent result is `Option`.
- A Python exception that the source does not catch is modelled as
  `Except.error` carrying a `PyError` naming the exception class.
- The network is a pure oracle `Fetch : Str → FetchResult` mapping the
  fully formatted URL to either a transport failure (which `requests.get`
  raises) or an HTTP response carrying a status code, the raw text and
  the parsed document.
- Each fetching function also returns the list of URLs it fetched, in
  order, so that claims about which fetches happen are statable.
-/

set_option autoImplicit false

deriving instance DecidableEq for Except

abbrev Str := List Char

/-- Convert a Lean string literal to the `List Char` representation. -/
def str (s : String) : Str := s.toList

/-- `word.lstrip()` / `word.strip()` whitespace set (ASCII relevant cases). -/
def pyIsSpace (c : Char) : Bool :=
  c = ' ' || c = '\t' || c = '\n' || c = '\r' || c = Char.ofNat 11 || c = Char.ofNat 12

/-- Python `s.split(sep)` for a one-character separator: keeps empty pieces,
`""` splits to `[""]`. -/
def pySplitOn (sep : Char) : Str → List Str
  | [] => [[]]
  | c :: cs =>
    if c = sep then [] :: pySplitOn sep cs
    else
      match pySplitOn sep cs with
      | r :: rs => (c :: r) :: rs
      | [] => [[c]]

/-- Python `s.lstrip()`. -/
def pyLStrip (s : Str) : Str := s.dropWhile pyIsSpace

/-- Python `s.strip()`. -/
def pyStrip (s : Str) : Str :=
  ((s.dropWhile pyIsSpace).reverse.dropWhile pyIsSpace).reverse

/-- Python `line.lstrip().split(maxsplit=1)[0]`: the first
whitespace-delimited word of the line, or `none` when the line is all
whitespace (where Python's `[0]` would raise `IndexError`). -/
def firstWord (line : Str) : Option Str :=
  let w := (line.dropWhile pyIsSpace).takeWhile (fun c => !pyIsSpace c)
  if w = [] then none else some w

/-- Uncaught Python exception classes that the source can raise. -/
inductive PyError where
  | indexError
  | valueError
  | nameError
  | attributeError
  | requestException
  deriving DecidableEq, Repr

/-- `[line.lstrip().split(maxsplit=1)[0] for line in lines]` where a line
with no word raises `IndexError` (the guard in the caller is only
`if line`, so whitespace-only lines reach the `[0]`). -/
def firstWords : List Str → Except PyError (List Str)
  | [] => .ok []
  | l :: ls =>
    match firstWord l with
    | none => .error .indexError
    | some w =>
      match firstWords ls with
      | .error e => .error e
      | .ok ws => .ok (w :: ws)

/-- `pat` occurs at the start of `s` (Python `s.startswith(pat)` shape,
used to implement substring search and `format`). -/
def leadsWith : Str → Str → Bool
  | [], _ => true
  | _ :: _, [] => false
  | a :: as, b :: bs => a = b && leadsWith as bs

/-- Python `pat in s` substring containment. -/
def containsSub (pat : Str) : Str → Bool
  | [] => pat = []
  | c :: cs => leadsWith pat (c :: cs) || containsSub pat cs

/-- Replace the first occurrence of `pat` in the string by `rep`:
Python `s.replace(pat, rep, 1)`, and also `s.format(arg)` when `pat`
is the `\x7b\x7d` slot. -/
def replaceFirst (pat rep : Str) : Str → Str
  | [] => []
  | c :: cs =>
    if leadsWith pat (c :: cs) then rep ++ (c :: cs).drop pat.length
    else c :: replaceFirst pat rep cs

/-- The `\x7b\x7d` placeholder of the URL template strings. -/
def formatSlot : Str := [Char.ofNat 123, Char.ofNat 125]

/-- Python `pages_string.format(command_name)` for templates with one
remaining placeholder. -/
def pyFormat (tmpl arg : Str) : Str := replaceFirst formatSlot arg tmpl

/-- First index of character `c` in `s` (Python `s.index(c)`, only used
when presence has been checked). -/
def pyIndexOf (c : Char) : Str → Nat
  | [] => 0
  | x :: xs => if x = c then 0 else pyIndexOf c xs + 1

/-- Python slice `s[a:b]` with possibly negative bounds. -/
def pySlice (s : Str) (a b : Int) : Str :=
  let n : Int := s.length
  let a' : Int := if a < 0 then max (n + a) 0 else min a n
  let b' : Int := if b < 0 then max (n + b) 0 else min b n
  (s.drop a'.toNat).take (b' - a').toNat

/-! ## Parsed documents, URL templates, the fetch oracle -/

/-- A parsed-tree element with its markup source line and text content
(`el.sourceline`, `el.text` in the source). -/
structure El where
  sourceline : Nat
  text : Str
  deriving DecidableEq, Repr

/-- The views of a parsed document (`BeautifulSoup` object) that
src/avail.py consumes: `find(id=...)`, `find_all('pre')`, `.text`,
`find_all('dt')`, `find_all('tt')`, `find_all('h3')`, and
`find_all('span', class_='bold')`, each in document order. -/
structure Soup where
  ids : List (Str × El)
  pres : List El
  text : Str
  dts : List Str
  tts : List Str
  h3s : List El
  boldSpans : List El
  deriving DecidableEq, Repr

/-- An HTTP response: `res.status_code`, `res.text` and the document
`BeautifulSoup(res.text, 'html.parser')` would produce from it. -/
structure Page where
  status : Nat
  text : Str
  soup : Soup
  deriving DecidableEq, Repr

/-- Outcome of `requests.get(url)`: a transport-level failure (raised as
an exception by `requests`) or a response. -/
inductive FetchResult where
  | transportError
  | response (page : Page)
  deriving DecidableEq, Repr

/-- The network oracle: URL to fetch outcome. -/
abbrev Fetch := Str → FetchResult

def LINUX_MAN_PAGES : Str := str "https://www.man7.org/linux/man-pages/man1/\x7b\x7d.1.html"

def FREEBSD_MAN_PAGES : Str :=
  str "https://bsd-unix.com/man.cgi?query=\x7b\x7d&sektion=1&manpath=FreeBSD+9.3-stable&format=html"

def SOLARIS_USER_MAN_PAGES : Str := str "https://docs.oracle.com/cd/E23824_01/html/821-1461/\x7b\x7d-1.html"

def SOLARIS_ADMIN_MAN_PAGES : Str := str "https://docs.oracle.com/cd/E23824_01/html/821-1462/\x7b\x7d-1m.html"

def PLAN_9_MAN_PAGES : Str := str "http://man.cat-v.org/plan_9/1/\x7b\x7d"

def POSIX7_PAGES : Str := str "https://pubs.opengroup.org/onlinepubs/9699919799/utilities/\x7b\x7d.html"

def AIX_MAN_PAGES : Str :=
  str "http://ps-2.kev009.com/wisclibrary/aix52/usr/share/man/info/en_US/a_doc_lib/cmds/aixcmds\x7b\x7d/\x7b\x7d.htm"

def NON_OPTS_CHARS : Str := str ".,;)]\x7d!"

/-- The FreeBSD site's in-page failure marker. -/
def noDataMarker : Str := str "Sorry, no data found"

/-! ## Document cache and `get_soup` -/

/-- `get_cached(command_name)` from the source: a placeholder that always
reports a miss (`soup = None`, `cache_hit = False`) and consults no store. -/
def get_cached (_command_name : Str) : Option Soup × Bool := (none, false)

/-- `get_soup(pages_string, command_name)`. Returns the pair
`(soup, page_found)` of the source (via `Except` for the transport
exception that `requests.get` raises uncaught), together with the list of
URLs fetched. The cache-hit branch is unreachable because `get_cached`
always misses (on that dead path the source returns a bare value, a shape
its callers could not even unpack). -/
def get_soup (fetch : Fetch) (pages_string command_name : Str) :
    Except PyError (Option Soup × Bool) × List Str :=
  match get_cached command_name with
  | (soup0, true) => (.ok (soup0, true), [])
  | (_, false) =>
    let url := pyFormat pages_string command_name
    match fetch url with
    | .transportError => (.error .requestException, [url])
    | .response res =>
      if res.status < 200 ∨ res.status > 299 then (.ok (none, false), [url])
      else if pages_string = FREEBSD_MAN_PAGES ∧ containsSub noDataMarker res.text then
        (.ok (none, false), [url])
      else (.ok (some res.soup, true), [url])

/-! ## Extraction functions -/

/-- The shared final stage `{o for o in opts if not o[-1] in NON_OPTS_CHARS}`. -/
def removeFalsePositives (opts : Finset Str) : Finset Str :=
  opts.filter (fun o => o.getLast! ∉ NON_OPTS_CHARS)

/-- `find_opts_linux(soup, header)`: look the header up by element id; if
absent return the empty set; otherwise take the first `pre` sharing the
header's source line (`IndexError` when there is none), split its text
into lines, take the first word of each non-empty line (`IndexError` on a
whitespace-only line), and filter. -/
def find_opts_linux (soup : Soup) (header : Str) : Except PyError (Finset Str) :=
  match soup.ids.find? (fun p => p.1 = header) with
  | none => .ok ∅
  | some hdr =>
    let header_source_line := hdr.2.sourceline
    match soup.pres.filter (fun pre => pre.sourceline = header_source_line) with
    | [] => .error .indexError
    | opts_el :: _ =>
      let opts_lines := pySplitOn '\n' opts_el.text
      match firstWords (opts_lines.filter (fun line => line ≠ [])) with
      | .error e => .error e
      | .ok ws =>
        let opts := ws.filter (fun line => line.head! = '-' && line ≠ ['-'])
        .ok (removeFalsePositives opts.toFinset)

/-- `find_opts_freebsd(soup)`: scan every line of the whole document text,
first word per line with a nonblank `strip()`, filter. Total. -/
def find_opts_freebsd (soup : Soup) : Finset Str :=
  let lines := pySplitOn '\n' soup.text
  let opts_lines := (lines.filter (fun line => pyStrip line ≠ [])).filterMap firstWord
  let opts := opts_lines.filter (fun line => line.head! = '-' && line ≠ ['-'])
  removeFalsePositives opts.toFinset

/-- The exact line `'     SYNOPSIS'` searched by `find_opts_plan_9`. -/
def synopsisLabel : Str := str "     SYNOPSIS"

/-- `find_opts_plan_9(soup)`: full-text line scan like FreeBSD, plus the
synopsis cluster fallback. `lines.index('     SYNOPSIS')` raises
`ValueError` when no such line exists; `lines[idx+1]` raises `IndexError`
when it is the last line; `synopsis.index(']')` raises `ValueError` when
`'['` occurs without `']'`; `short_opts[0]` raises `IndexError` when the
bracket slice is empty. -/
def find_opts_plan_9 (soup : Soup) : Except PyError (Finset Str) :=
  let lines := pySplitOn '\n' soup.text
  let opts_lines := (lines.filter (fun line => pyStrip line ≠ [])).filterMap firstWord
  let opts : Finset Str :=
    (opts_lines.filter (fun line => line.head! = '-' && line ≠ ['-'])).toFinset
  match lines.findIdx? (fun l => l = synopsisLabel) with
  | none => .error .valueError
  | some idx =>
    match lines.get? (idx + 1) with
    | none => .error .indexError
    | some synopsis =>
      if containsSub ['['] synopsis then
        if containsSub [']'] synopsis then
          let short_opts :=
            pySlice synopsis ((pyIndexOf '[' synopsis : Int) + 2)
              ((pyIndexOf ']' synopsis : Int) - 1)
          match short_opts with
          | [] => .error .indexError
          | c :: rest =>
            if c = '-' then
              .ok (removeFalsePositives (opts ∪ (rest.map (fun o => ['-', o])).toFinset))
            else .ok (removeFalsePositives opts)
        else .error .valueError
      else .ok (removeFalsePositives opts)

/-- `find_opts_posix_7(soup)`: the text of every `dt` element, taken
whole, guarded by `o.text and o.text[0] == '-' and o.text != '-'`. -/
def find_opts_posix_7 (soup : Soup) : Finset Str :=
  let opts := soup.dts.filter (fun o => o ≠ [] && o.head! = '-' && o ≠ ['-'])
  removeFalsePositives opts.toFinset

/-- `find_opts_solaris(soup)`: the text of every `tt` element, taken
whole, same guard as POSIX.7. -/
def find_opts_solaris (soup : Soup) : Finset Str :=
  let opts := soup.tts.filter (fun o => o ≠ [] && o.head! = '-' && o ≠ ['-'])
  removeFalsePositives opts.toFinset

/-- Insertion into a sorted list, for Python `sorted(...)`. -/
def insertLe (x : Nat) : List Nat → List Nat
  | [] => [x]
  | y :: ys => if x ≤ y then x :: y :: ys else y :: insertLe x ys

/-- Python `sorted` on a list of numbers. -/
def pySorted : List Nat → List Nat
  | [] => []
  | x :: xs => insertLe x (pySorted xs)

/-- The candidate comprehension of `find_opts_aix`, with Python's
left-to-right, short-circuit condition evaluation: when a candidate lies
past the section heading but no later heading exists, the name
`next_header_sourceline` was never bound (`NameError`); `c.text[0]` on an
empty text raises `IndexError`. -/
def aixCandidates (flags_sourceline : Nat) (next_header_sourceline : Option Nat) :
    List El → Except PyError (List Str)
  | [] => .ok []
  | c :: cs =>
    if flags_sourceline < c.sourceline then
      match next_header_sourceline with
      | none => .error .nameError
      | some nh =>
        if c.sourceline < nh then
          match c.text with
          | [] => .error .indexError
          | t0 :: _ =>
            if t0 = '-' ∧ c.text ≠ ['-'] then
              match aixCandidates flags_sourceline next_header_sourceline cs with
              | .error e => .error e
              | .ok rest => .ok (c.text :: rest)
            else aixCandidates flags_sourceline next_header_sourceline cs
        else aixCandidates flags_sourceline next_header_sourceline cs
    else aixCandidates flags_sourceline next_header_sourceline cs

/-- `find_opts_aix(soup, section)`: the first `h3` whose text equals the
section label anchors the region; the body ends at the first later `h3`
source line; candidates are bold spans strictly inside the region. -/
def find_opts_aix (soup : Soup) (sectionLabel : Str) : Except PyError (Finset Str) :=
  match (soup.h3s.filter (fun h => h.text = sectionLabel)).map El.sourceline with
  | [] => .ok ∅
  | flags_sourceline :: _ =>
    let header_sourcelines := pySorted (soup.h3s.map El.sourceline)
    let next_header_sourceline := header_sourcelines.find? (fun sl => flags_sourceline < sl)
    match aixCandidates flags_sourceline next_header_sourceline soup.boldSpans with
    | .error e => .error e
    | .ok opts => .ok (removeFalsePositives opts.toFinset)

/-! ## Source adapters -/

/-- `get_linux_opts(command_name)`: returns `(opts, description)` and the
fetch log. The description is `find_all('pre')[1]` (`IndexError` when the
page has fewer than two `pre` blocks), computed before the section scans;
options are the union over the `OPTIONS` and `EXPRESSION` headings. -/
def get_linux_opts (fetch : Fetch) (command_name : Str) :
    Except PyError (Option (Finset Str) × Option Str) × List Str :=
  match get_soup fetch LINUX_MAN_PAGES command_name with
  | (.error e, log) => (.error e, log)
  | (.ok (_, false), log) => (.ok (none, none), log)
  | (.ok (none, true), log) => (.error .attributeError, log)
  | (.ok (some soup, true), log) =>
    match soup.pres.get? 1 with
    | none => (.error .indexError, log)
    | some pre1 =>
      let description := pyStrip pre1.text
      match find_opts_linux soup (str "OPTIONS") with
      | .error e => (.error e, log)
      | .ok s1 =>
        match find_opts_linux soup (str "EXPRESSION") with
        | .error e => (.error e, log)
        | .ok s2 => (.ok (some ((∅ : Finset Str) ∪ s1 ∪ s2), some description), log)

/-- `get_freebsd_opts(command_name)`. -/
def get_freebsd_opts (fetch : Fetch) (command_name : Str) :
    Except PyError (Option (Finset Str)) × List Str :=
  match get_soup fetch FREEBSD_MAN_PAGES command_name with
  | (.error e, log) => (.error e, log)
  | (.ok (_, false), log) => (.ok none, log)
  | (.ok (none, true), log) => (.error .attributeError, log)
  | (.ok (some soup, true), log) => (.ok (some (find_opts_freebsd soup)), log)

/-- `get_plan_9_opts(command_name)`: hardcoded overrides for `cp`, `fcp`
and `mv` bypass the fetch entirely; otherwise fetch and extract. -/
def get_plan_9_opts (fetch : Fetch) (command_name : Str) :
    Except PyError (Option (Finset Str)) × List Str :=
  if command_name = str "cp" then (.ok (some {str "-g", str "-u", str "-x"}), [])
  else if command_name = str "fcp" then (.ok (some {str "-g", str "-u", str "-x"}), [])
  else if command_name = str "mv" then (.ok (some ∅), [])
  else
    match get_soup fetch PLAN_9_MAN_PAGES command_name with
    | (.error e, log) => (.error e, log)
    | (.ok (_, false), log) => (.ok none, log)
    | (.ok (none, true), log) => (.error .attributeError, log)
    | (.ok (some soup, true), log) =>
      match find_opts_plan_9 soup with
      | .error e => (.error e, log)
      | .ok s => (.ok (some s), log)

/-- `get_posix_7_opts(command_name)`. -/
def get_posix_7_opts (fetch : Fetch) (command_name : Str) :
    Except PyError (Option (Finset Str)) × List Str :=
  match get_soup fetch POSIX7_PAGES command_name with
  | (.error e, log) => (.error e, log)
  | (.ok (_, false), log) => (.ok none, log)
  | (.ok (none, true), log) => (.error .attributeError, log)
  | (.ok (some soup, true), log) => (.ok (some (find_opts_posix_7 soup)), log)

/-- `get_solaris_opts(command_name)`: try the user-commands endpoint, then
the admin-commands endpoint, before returning `None`. -/
def get_solaris_opts (fetch : Fetch) (command_name : Str) :
    Except PyError (Option (Finset Str)) × List Str :=
  match get_soup fetch SOLARIS_USER_MAN_PAGES command_name with
  | (.error e, log) => (.error e, log)
  | (.ok (none, true), log) => (.error .attributeError, log)
  | (.ok (some soup, true), log) => (.ok (some (find_opts_solaris soup)), log)
  | (.ok (_, false), log1) =>
    match get_soup fetch SOLARIS_ADMIN_MAN_PAGES command_name with
    | (.error e, log2) => (.error e, log1 ++ log2)
    | (.ok (_, false), log2) => (.ok none, log1 ++ log2)
    | (.ok (none, true), log2) => (.error .attributeError, log1 ++ log2)
    | (.ok (some soup, true), log2) => (.ok (some (find_opts_solaris soup)), log1 ++ log2)

/-- The AIX volume URL template for one volume:
`AIX_MAN_PAGES.replace('\x7b\x7d', str(volume), 1)`. -/
def aix_volume_template (volume : Nat) : Str :=
  replaceFirst formatSlot (str (toString volume)) AIX_MAN_PAGES

/-- The full AIX URL for a volume and command. -/
def aix_url (volume : Nat) (command_name : Str) : Str :=
  pyFormat (aix_volume_template volume) command_name

/-- The volume loop of `get_aix_opts`: probe each volume in order and stop
at the first `page_found`. -/
def get_aix_soup (fetch : Fetch) (command_name : Str) :
    List Nat → Except PyError (Option Soup) × List Str
  | [] => (.ok none, [])
  | v :: vs =>
    match get_soup fetch (aix_volume_template v) command_name with
    | (.error e, log) => (.error e, log)
    | (.ok (some soup, true), log) => (.ok (some soup), log)
    | (.ok (none, true), log) => (.error .attributeError, log)
    | (.ok (_, false), log) =>
      match get_aix_soup fetch command_name vs with
      | (r, log2) => (r, log ++ log2)

/-- `get_aix_opts(command_name)`: probe volumes 1..6, then extract the
`Flags` and `Expression Terms` sections. -/
def get_aix_opts (fetch : Fetch) (command_name : Str) :
    Except PyError (Option (Finset Str)) × List Str :=
  match get_aix_soup fetch command_name [1, 2, 3, 4, 5, 6] with
  | (.error e, log) => (.error e, log)
  | (.ok none, log) => (.ok none, log)
  | (.ok (some soup), log) =>
    match find_opts_aix soup (str "Flags") with
    | .error e => (.error e, log)
    | .ok s1 =>
      match find_opts_aix soup (str "Expression Terms") with
      | .error e => (.error e, log)
      | .ok s2 => (.ok (some ((∅ : Finset Str) ∪ s1 ∪ s2)), log)

/-! ## Aggregation: one iteration of `input_loop` -/

/-- Python truthiness of an `Optional[set]`: not `None` and non-empty.
This is the test `if linux_opts and ...` uses on each per-option line. -/
def optsTruthy : Option (Finset Str) → Bool
  | none => false
  | some s => if s = ∅ then false else true

/-- The per-option `not_present_list`, built by the four `append`s of the
source in their order: GNU/Linux, FreeBSD, Plan 9, Solaris. AIX and
POSIX.7 results are never consulted here. -/
def not_present_list (linux_opts freebsd_opts plan_9_opts solaris_opts : Option (Finset Str))
    (opt : Str) : List String :=
  (if optsTruthy linux_opts = true ∧ opt ∉ linux_opts.getD ∅ then ["GNU/Linux"] else []) ++
    (if optsTruthy freebsd_opts = true ∧ opt ∉ freebsd_opts.getD ∅ then ["FreeBSD"] else []) ++
      (if optsTruthy plan_9_opts = true ∧ opt ∉ plan_9_opts.getD ∅ then ["Plan 9"] else []) ++
        (if optsTruthy solaris_opts = true ∧ opt ∉ solaris_opts.getD ∅ then ["Solaris"] else [])

/-- Everything one loop iteration prints after the total-failure check:
the description block (printed only when truthy), the four platform
absence notes, one line per requested option, and the reference links
(the source prints no Solaris or AIX link). -/
structure Report where
  shown_description : Option Str
  freebsd_absent : Bool
  plan9_absent : Bool
  posix7_absent : Bool
  solaris_absent : Bool
  opt_lines : List (Str × List String)
  linux_link : Bool
  freebsd_link : Bool
  plan9_link : Bool
  posix7_link : Bool
  deriving DecidableEq, Repr

/-- Assemble the printed report from the six adapter results and the
requested options. -/
def mkReport (linux_opts : Option (Finset Str)) (description : Option Str)
    (freebsd_opts plan_9_opts posix_7_opts solaris_opts : Option (Finset Str))
    (user_opts : List Str) : Report where
  shown_description :=
    match description with
    | some d => if d = [] then none else some d
    | none => none
  freebsd_absent := freebsd_opts.isNone
  plan9_absent := plan_9_opts.isNone
  posix7_absent := posix_7_opts.isNone
  solaris_absent := solaris_opts.isNone
  opt_lines :=
    user_opts.map (fun opt =>
      (opt, not_present_list linux_opts freebsd_opts plan_9_opts solaris_opts opt))
  linux_link := linux_opts.isSome
  freebsd_link := freebsd_opts.isSome
  plan9_link := plan_9_opts.isSome
  posix7_link := posix_7_opts.isSome

/-- `user_opts = {x for x in command if x and x[0] == '-' and x != '-'}`.
Python's set iteration order is unspecified; the model fixes one
deduplicated order, which affects only the printing order of the
per-option lines, not their content. -/
def pyUserOpts (command : List Str) : List Str :=
  (command.filter (fun x => x ≠ [] && x.head! = '-' && x ≠ ['-'])).dedup

/-- Outcome of one iteration of `input_loop` for one entered command:
`skip` for an empty input line, `failure` for the
`Failed to find result` message (no per-option breakdown exists in this
outcome), or the assembled report. -/
inductive QueryOutcome where
  | skip
  | failure
  | report (r : Report)
  deriving DecidableEq, Repr

/-- One iteration of `input_loop` on an already-tokenized input line:
call the Linux, FreeBSD, Solaris and AIX adapters; if all four returned
`None`, report total failure; only then call the Plan 9 and POSIX.7
adapters and assemble the report. Any uncaught exception aborts the
iteration (and the loop, which catches only `KeyboardInterrupt`). -/
def input_step (fetch : Fetch) (command : List Str) : Except PyError QueryOutcome :=
  match command with
  | [] => .ok .skip
  | command_name :: _ =>
    let user_opts := pyUserOpts command
    match (get_linux_opts fetch command_name).1 with
    | .error e => .error e
    | .ok (linux_opts, description) =>
      match (get_freebsd_opts fetch command_name).1 with
      | .error e => .error e
      | .ok freebsd_opts =>
        match (get_solaris_opts fetch command_name).1 with
        | .error e => .error e
        | .ok solaris_opts =>
          match (get_aix_opts fetch command_name).1 with
          | .error e => .error e
          | .ok aix_opts =>
            if linux_opts = none ∧ freebsd_opts = none ∧ solaris_opts = none ∧ aix_opts = none then
              .ok .failure
            else
              match (get_plan_9_opts fetch command_name).1 with
              | .error e => .error e
              | .ok plan_9_opts =>
                match (get_posix_7_opts fetch command_name).1 with
                | .error e => .error e
                | .ok posix_7_opts =>
                  .ok (.report (mkReport linux_opts description freebsd_opts plan_9_opts
                    posix_7_opts solaris_opts user_opts))

/-- The variant of `input_step` in which the Plan 9 and POSIX.7 adapters
are invoked unconditionally, before the total-failure check (the check
itself unchanged). Used to state the deferral-equivalence claim. -/
def input_step_unconditional (fetch : Fetch) (command : List Str) : Except PyError QueryOutcome :=
  match command with
  | [] => .ok .skip
  | command_name :: _ =>
    let user_opts := pyUserOpts command
    match (get_linux_opts fetch command_name).1 with
    | .error e => .error e
    | .ok (linux_opts, description) =>
      match (get_freebsd_opts fetch command_name).1 with
      | .error e => .error e
      | .ok freebsd_opts =>
        match (get_solaris_opts fetch command_name).1 with
        | .error e => .error e
        | .ok solaris_opts =>
          match (get_aix_opts fetch command_name).1 with
          | .error e => .error e
          | .ok aix_opts =>
            match (get_plan_9_opts fetch command_name).1 with
            | .error e => .error e
            | .ok plan_9_opts =>
              match (get_posix_7_opts fetch command_name).1 with
              | .error e => .error e
              | .ok posix_7_opts =>
                if linux_opts = none ∧ freebsd_opts = none ∧ solaris_opts = none ∧
                    aix_opts = none then
                  .ok .failure
                else
                  .ok (.report (mkReport linux_opts description freebsd_opts plan_9_opts
                    posix_7_opts solaris_opts user_opts))

/-- The Token Filter: the option-token test shared by all six adapters
(realized in the source as the two inline stages
`word[0] == '-' and word != '-'` and `not word[-1] in NON_OPTS_CHARS`). -/
def is_option_token (word : Str) : Bool :=
  word.head! = '-' && word ≠ ['-'] && !(word.getLast! ∈ NON_OPTS_CHARS)

/-- The OptionToken well-formedness predicate of the data model. -/
def wf_option_token (t : Str) : Prop :=
  2 ≤ t.length ∧ t.head! = '-' ∧ t ≠ ['-'] ∧ t.getLast! ∉ NON_OPTS_CHARS

/-! ## Concrete fixtures -/

/-- A parsed document with no recognizable structure. -/
def emptySoup : Soup := ⟨[], [], [], [], [], [], []⟩

/-- A 404 response. -/
def page404 : Page := ⟨404, [], emptySoup⟩

/-- An oracle under which every fetch yields a 404 response. -/
def fetch404 : Fetch := fun _ => .response page404

/-- An oracle under which every fetch fails at the transport level. -/
def fetchTransport : Fetch := fun _ => .transportError

/-- A minimal Linux man page for `mv`: two `pre` blocks (synopsis and
description) and an `OPTIONS` heading whose body `pre` shares its source
line and documents only `-f`. -/
def linuxSoupMv : Soup where
  ids := [(str "OPTIONS", ⟨10, str "OPTIONS"⟩)]
  pres := [⟨1, str "mv [option] source dest"⟩, ⟨2, str "mv - move files"⟩,
    ⟨10, str "  -f  do not prompt before overwriting"⟩]
  text := []
  dts := []
  tts := []
  h3s := []
  boldSpans := []

/-- An oracle where only the Linux page for `mv` exists. -/
def fetchMv : Fetch := fun url =>
  if url = pyFormat LINUX_MAN_PAGES (str "mv") then .response ⟨200, [], linuxSoupMv⟩
  else .response page404

/-- The report `input_step fetchMv` produces for the input `mv -z`. -/
def reportMv : Report :=
  mkReport (some {str "-f"}) (some (str "mv - move files")) none (some ∅) none none [str "-z"]

/-- An oracle where only AIX volume 4 documents the command `grep`
(volumes 1-3 return 404; the volume-4 page parses to an empty document). -/
def fetchAix4 : Fetch := fun url =>
  if url = aix_url 4 (str "grep") then .response ⟨200, [], emptySoup⟩
  else .response page404

/-- A Plan 9 man page whose text has no `     SYNOPSIS` line. -/
def soupNoSynopsis : Soup := { emptySoup with text := str "NAME\n     ls - list files" }

/-- A Linux page whose `OPTIONS` heading exists but no `pre` block shares
its source line. -/
def soupHeadingNoBody : Soup := { emptySoup with ids := [(str "OPTIONS", ⟨10, str "OPTIONS"⟩)] }

/-- An AIX page where `Flags` is the last heading and a bold span follows
it. -/
def soupFlagsLast : Soup :=
  { emptySoup with
    h3s := [⟨5, str "Description"⟩, ⟨10, str "Flags"⟩]
    boldSpans := [⟨12, str "-x"⟩] }


/-! ## Helper predicates and lemmas about fetch outcomes -/

/-- The fetch produced an HTTP response whose status lies outside 200-299
(the failed-probe case that `get_soup` turns into "not found"). -/
def probe_missed : FetchResult → Bool
  | .transportError => false
  | .response p => p.status < 200 || 299 < p.status

/-- The fetch produced an HTTP response with a 2xx status. -/
def page_found_of : FetchResult → Bool
  | .transportError => false
  | .response p => 200 ≤ p.status && p.status ≤ 299

lemma get_soup_missed (fetch : Fetch) (tmpl cmd : Str)
    (h : probe_missed (fetch (pyFormat tmpl cmd)) = true) :
    get_soup fetch tmpl cmd = (.ok (none, false), [pyFormat tmpl cmd]) := by
  cases hf : fetch (pyFormat tmpl cmd) with
  | transportError => rw [hf] at h; simp [probe_missed] at h
  | response p =>
    rw [hf] at h
    simp only [probe_missed, Bool.or_eq_true, decide_eq_true_eq] at h
    have h' : p.status < 200 ∨ p.status > 299 := h
    simp [get_soup, get_cached, hf, h']

lemma get_soup_found (fetch : Fetch) (tmpl cmd : Str) (p : Page)
    (hf : fetch (pyFormat tmpl cmd) = .response p)
    (hst : 200 ≤ p.status ∧ p.status ≤ 299) (hnb : tmpl ≠ FREEBSD_MAN_PAGES) :
    get_soup fetch tmpl cmd = (.ok (some p.soup, true), [pyFormat tmpl cmd]) := by
  have h1 : ¬(p.status < 200 ∨ p.status > 299) := by omega
  simp [get_soup, get_cached, hf, h1, hnb]

lemma get_soup_transport (fetch : Fetch) (tmpl cmd : Str)
    (hf : fetch (pyFormat tmpl cmd) = .transportError) :
    get_soup fetch tmpl cmd = (.error .requestException, [pyFormat tmpl cmd]) := by
  simp [get_soup, get_cached, hf]

lemma get_linux_opts_missed (fetch : Fetch) (cmd : Str)
    (h : probe_missed (fetch (pyFormat LINUX_MAN_PAGES cmd)) = true) :
    get_linux_opts fetch cmd = (.ok (none, none), [pyFormat LINUX_MAN_PAGES cmd]) := by
  simp [get_linux_opts, get_soup_missed fetch LINUX_MAN_PAGES cmd h]

lemma get_freebsd_opts_missed (fetch : Fetch) (cmd : Str)
    (h : probe_missed (fetch (pyFormat FREEBSD_MAN_PAGES cmd)) = true) :
    get_freebsd_opts fetch cmd = (.ok none, [pyFormat FREEBSD_MAN_PAGES cmd]) := by
  simp [get_freebsd_opts, get_soup_missed fetch FREEBSD_MAN_PAGES cmd h]

lemma get_posix_7_opts_missed (fetch : Fetch) (cmd : Str)
    (h : probe_missed (fetch (pyFormat POSIX7_PAGES cmd)) = true) :
    get_posix_7_opts fetch cmd = (.ok none, [pyFormat POSIX7_PAGES cmd]) := by
  simp [get_posix_7_opts, get_soup_missed fetch POSIX7_PAGES cmd h]

lemma get_solaris_opts_missed (fetch : Fetch) (cmd : Str)
    (h1 : probe_missed (fetch (pyFormat SOLARIS_USER_MAN_PAGES cmd)) = true)
    (h2 : probe_missed (fetch (pyFormat SOLARIS_ADMIN_MAN_PAGES cmd)) = true) :
    get_solaris_opts fetch cmd =
      (.ok none, [pyFormat SOLARIS_USER_MAN_PAGES cmd, pyFormat SOLARIS_ADMIN_MAN_PAGES cmd]) := by
  simp [get_solaris_opts, get_soup_missed fetch SOLARIS_USER_MAN_PAGES cmd h1,
    get_soup_missed fetch SOLARIS_ADMIN_MAN_PAGES cmd h2]

lemma get_plan_9_opts_missed (fetch : Fetch) (cmd : Str)
    (hc1 : cmd ≠ str "cp") (hc2 : cmd ≠ str "fcp") (hc3 : cmd ≠ str "mv")
    (h : probe_missed (fetch (pyFormat PLAN_9_MAN_PAGES cmd)) = true) :
    get_plan_9_opts fetch cmd = (.ok none, [pyFormat PLAN_9_MAN_PAGES cmd]) := by
  simp [get_plan_9_opts, hc1, hc2, hc3, get_soup_missed fetch PLAN_9_MAN_PAGES cmd h]

lemma get_aix_soup_missed (fetch : Fetch) (cmd : Str) (vs : List Nat)
    (h : ∀ v ∈ vs, probe_missed (fetch (aix_url v cmd)) = true) :
    get_aix_soup fetch cmd vs = (.ok none, vs.map (fun v => aix_url v cmd)) := by
  induction vs with
  | nil => rfl
  | cons v vs ih =>
    have hv : probe_missed (fetch (pyFormat (aix_volume_template v) cmd)) = true := by
      have := h v (by simp)
      simpa [aix_url] using this
    have hrec := ih (fun u hu => h u (by simp [hu]))
    simp [get_aix_soup, get_soup_missed fetch (aix_volume_template v) cmd hv, hrec, aix_url]

lemma get_aix_opts_missed (fetch : Fetch) (cmd : Str)
    (h : ∀ v ∈ ([1, 2, 3, 4, 5, 6] : List Nat), probe_missed (fetch (aix_url v cmd)) = true) :
    get_aix_opts fetch cmd = (.ok none,
      [aix_url 1 cmd, aix_url 2 cmd, aix_url 3 cmd,
        aix_url 4 cmd, aix_url 5 cmd, aix_url 6 cmd]) := by
  simp [get_aix_opts, get_aix_soup_missed fetch cmd [1, 2, 3, 4, 5, 6] h]

/-! ## Claims -/

/-- C2 (amended): a fetch whose HTTP status lies outside 200-299 yields
`NotFound` for that single adapter only — each adapter returns `None`
with no exception, and when every fetch in a query misses this way the
query ends in the ordinary total-failure outcome, so the loop proceeds to
the next command. (The transport-failure half of the original claim is
refuted separately: `requests.get` raises and nothing catches it.) -/
theorem c2_fetch_failures :
    (∀ fetch cmd, probe_missed (fetch (pyFormat LINUX_MAN_PAGES cmd)) = true →
      get_linux_opts fetch cmd = (.ok (none, none), [pyFormat LINUX_MAN_PAGES cmd])) ∧
    (∀ fetch cmd, probe_missed (fetch (pyFormat FREEBSD_MAN_PAGES cmd)) = true →
      get_freebsd_opts fetch cmd = (.ok none, [pyFormat FREEBSD_MAN_PAGES cmd])) ∧
    (∀ fetch cmd, probe_missed (fetch (pyFormat SOLARIS_USER_MAN_PAGES cmd)) = true →
      probe_missed (fetch (pyFormat SOLARIS_ADMIN_MAN_PAGES cmd)) = true →
      get_solaris_opts fetch cmd =
        (.ok none, [pyFormat SOLARIS_USER_MAN_PAGES cmd, pyFormat SOLARIS_ADMIN_MAN_PAGES cmd])) ∧
    (∀ fetch cmd, cmd ≠ str "cp" → cmd ≠ str "fcp" → cmd ≠ str "mv" →
      probe_missed (fetch (pyFormat PLAN_9_MAN_PAGES cmd)) = true →
      get_plan_9_opts fetch cmd = (.ok none, [pyFormat PLAN_9_MAN_PAGES cmd])) ∧
    (∀ fetch cmd, probe_missed (fetch (pyFormat POSIX7_PAGES cmd)) = true →
      get_posix_7_opts fetch cmd = (.ok none, [pyFormat POSIX7_PAGES cmd])) ∧
    (∀ fetch cmd, (∀ v ∈ ([1, 2, 3, 4, 5, 6] : List Nat),
        probe_missed (fetch (aix_url v cmd)) = true) →
      get_aix_opts fetch cmd = (.ok none,
        [aix_url 1 cmd, aix_url 2 cmd, aix_url 3 cmd,
          aix_url 4 cmd, aix_url 5 cmd, aix_url 6 cmd])) ∧
    (∀ fetch (name : Str) (rest : List Str), (∀ u, probe_missed (fetch u) = true) →
      input_step fetch (name :: rest) = .ok .failure) := by
  refine ⟨get_linux_opts_missed, get_freebsd_opts_missed, get_solaris_opts_missed,
    get_plan_9_opts_missed, get_posix_7_opts_missed, get_aix_opts_missed,
    fun fetch name rest h => ?_⟩
  have hl := get_linux_opts_missed fetch name (h _)
  have hf := get_freebsd_opts_missed fetch name (h _)
  have hs := get_solaris_opts_missed fetch name (h _) (h _)
  have ha := get_aix_opts_missed fetch name (fun v _ => h _)
  simp [input_step, hl, hf, hs, ha]

/-- C2 witness: under an all-404 oracle each adapter reports not-found
and the query for `ls` ends in the ordinary total-failure outcome. -/
theorem c2_fetch_failures_w :
    get_linux_opts fetch404 (str "ls") =
      (.ok (none, none), [pyFormat LINUX_MAN_PAGES (str "ls")]) ∧
    input_step fetch404 [str "ls"] = .ok .failure :=
  ⟨c2_fetch_failures.1 fetch404 (str "ls") rfl,
    c2_fetch_failures.2.2.2.2.2.2 fetch404 (str "ls") [] (fun _ => rfl)⟩

/-- C2 counterexample: a transport-level fetch failure is not converted
to `NotFound`; `requests.get` raises, nothing in the loop body catches
it, and the query for `ls` aborts with the exception. -/
theorem c2_counterexample :
    input_step fetchTransport [str "ls"] = .error .requestException := by decide

/-- C5 (confirmed): when every adapter returns `NotFound` the query
reports the total-failure outcome, which carries no per-option
breakdown (the per-option lists are computed only in the `report`
outcome). -/
theorem c5_total_failure (fetch : Fetch) (name : Str) (rest : List Str) (d : Option Str)
    (hl : (get_linux_opts fetch name).1 = .ok (none, d))
    (hf : (get_freebsd_opts fetch name).1 = .ok none)
    (hs : (get_solaris_opts fetch name).1 = .ok none)
    (ha : (get_aix_opts fetch name).1 = .ok none)
    (_hp : (get_plan_9_opts fetch name).1 = .ok none)
    (_hx : (get_posix_7_opts fetch name).1 = .ok none) :
    input_step fetch (name :: rest) = .ok .failure := by
  simp [input_step, hl, hf, hs, ha]

/-- C5 witness: all six adapters return `NotFound` for `ls` under the
all-404 oracle, and the query reports total failure. -/
theorem c5_total_failure_w : input_step fetch404 [str "ls"] = .ok .failure :=
  c5_total_failure fetch404 (str "ls") [] none (by decide) (by decide) (by decide)
    (by decide) (by decide) (by decide)

/-- C6 (amended): the Document Cache of the source is an unimplemented
placeholder: `get_cached` reports a miss for every command name, and
`get_soup` therefore performs its fetch on every request; nothing is
ever stored and no eviction logic exists. -/
theorem c6_cache_placeholder :
    (∀ cmd, get_cached cmd = (none, false)) ∧
    (∀ fetch tmpl cmd, (get_soup fetch tmpl cmd).2 = [pyFormat tmpl cmd]) := by
  refine ⟨fun _ => rfl, fun fetch tmpl cmd => ?_⟩
  cases hf : fetch (pyFormat tmpl cmd) with
  | transportError => simp [get_soup, get_cached, hf]
  | response p =>
    by_cases h1 : p.status < 200 ∨ p.status > 299
    · simp [get_soup, get_cached, hf, h1]
    · by_cases h2 : tmpl = FREEBSD_MAN_PAGES ∧ containsSub noDataMarker p.text
      · obtain ⟨h2a, h2b⟩ := h2
        subst h2a
        simp [get_soup, get_cached, hf, h1, h2b]
      · simp [get_soup, get_cached, hf, h1, h2]

/-- C6 counterexample: the cache is permanently empty — a lookup for `ls`
misses, and a `get_soup` request for `ls` invokes the fetch (and would
again on any repetition, `get_soup` being stateless with no store). -/
theorem c6_counterexample :
    get_cached (str "ls") = (none, false) ∧
    (get_soup fetch404 LINUX_MAN_PAGES (str "ls")).2 ≠ [] :=
  ⟨rfl, by decide⟩

/-- C8 (confirmed): the Plan 9 hardcoded overrides: `cp` and `fcp`
resolve to exactly the set of tokens -g, -u, -x and `mv` to the empty
set, each with an empty fetch log (no fetch performed), whatever the
network oracle. -/
theorem c8_plan9_overrides (fetch : Fetch) :
    get_plan_9_opts fetch (str "cp") = (.ok (some {str "-g", str "-u", str "-x"}), []) ∧
    get_plan_9_opts fetch (str "fcp") = (.ok (some {str "-g", str "-u", str "-x"}), []) ∧
    get_plan_9_opts fetch (str "mv") = (.ok (some ∅), []) :=
  ⟨rfl, rfl, rfl⟩

/-- C3 (amended): deferring the Plan 9 and POSIX.7 adapters to after the
total-failure check never changes the outcome, provided those two adapter
calls raise no exception; but the check itself consults only the four
heavier platforms, so when all four return `NotFound` the query reports
total failure without consulting Plan 9 or POSIX.7 at all — a command
with a hardcoded Plan 9 result is then reported as a total failure, not
as present on Plan 9. -/
theorem c3_deferral_equiv (fetch : Fetch) (name : Str) (rest : List Str)
    (v9 vx : Option (Finset Str))
    (h9 : (get_plan_9_opts fetch name).1 = .ok v9)
    (hx : (get_posix_7_opts fetch name).1 = .ok vx) :
    input_step_unconditional fetch (name :: rest) = input_step fetch (name :: rest) := by
  cases hL : (get_linux_opts fetch name).1 with
  | error e => simp [input_step, input_step_unconditional, hL]
  | ok lv =>
    obtain ⟨lo, de⟩ := lv
    cases hF : (get_freebsd_opts fetch name).1 with
    | error e => simp [input_step, input_step_unconditional, hL, hF]
    | ok fo =>
      cases hS : (get_solaris_opts fetch name).1 with
      | error e => simp [input_step, input_step_unconditional, hL, hF, hS]
      | ok so =>
        cases hA : (get_aix_opts fetch name).1 with
        | error e => simp [input_step, input_step_unconditional, hL, hF, hS, hA]
        | ok ao =>
          by_cases hall : lo = none ∧ fo = none ∧ so = none ∧ ao = none
          · simp [input_step, input_step_unconditional, hL, hF, hS, hA, h9, hx, hall]
          · simp [input_step, input_step_unconditional, hL, hF, hS, hA, h9, hx, hall]

/-- C3 witness: for `mv` under the oracle where only the Linux page
exists, both orderings produce the same report. -/
theorem c3_deferral_equiv_w :
    input_step_unconditional fetchMv [str "mv", str "-z"] = input_step fetchMv [str "mv", str "-z"] :=
  c3_deferral_equiv fetchMv (str "mv") [str "-z"] (some ∅) none rfl (by decide)

/-- C3 counterexample: `mv` has a hardcoded Plan 9 result (`Found` with
the empty option set, no fetch), yet when the four heavier platforms all
return `NotFound` the query reports total failure — `mv` is not reported
as present on Plan 9, so a report outcome does depend on the
short-circuit that the deferral enables. -/
theorem c3_counterexample :
    get_plan_9_opts fetch404 (str "mv") = (.ok (some ∅), []) ∧
    input_step fetch404 [str "mv"] = .ok .failure :=
  ⟨rfl, by decide⟩

/-- C4 (amended): the heading-absent cases do degrade: a Linux or AIX
section heading that does not occur yields the empty option set rather
than an error (and the FreeBSD, Solaris and POSIX.7 extractors are total
by construction). The claim's further cases are refuted: ragged documents
can raise (see the counterexample). -/
theorem c4_section_absent_degrades :
    (∀ soup header, soup.ids.find? (fun pr => pr.1 = header) = none →
      find_opts_linux soup header = .ok ∅) ∧
    (∀ soup sectionLabel, soup.h3s.filter (fun h => h.text = sectionLabel) = [] →
      find_opts_aix soup sectionLabel = .ok ∅) := by
  constructor
  · intro soup header h
    simp [find_opts_linux, h]
  · intro soup sectionLabel h
    simp [find_opts_aix, h]

/-- C4 witness: on an empty document both section-scoped extractors
return the empty set for an absent heading. -/
theorem c4_section_absent_degrades_w :
    find_opts_linux emptySoup (str "NOTES") = .ok ∅ ∧
    find_opts_aix emptySoup (str "NOTES") = .ok ∅ :=
  ⟨c4_section_absent_degrades.1 emptySoup (str "NOTES") rfl,
    c4_section_absent_degrades.2 emptySoup (str "NOTES") rfl⟩

/-- C4 counterexample: three ragged documents on which extraction raises
instead of degrading: a Plan 9 page with no `     SYNOPSIS` line raises
`ValueError`; a Linux page whose `OPTIONS` heading has no same-line `pre`
body raises `IndexError`; an AIX page where the searched heading is the
last heading (and a bold span follows it) raises `NameError`. -/
theorem c4_counterexample :
    find_opts_plan_9 soupNoSynopsis = .error .valueError ∧
    find_opts_linux soupHeadingNoBody (str "OPTIONS") = .error .indexError ∧
    find_opts_aix soupFlagsLast (str "Flags") = .error .nameError :=
  ⟨by decide, by decide, by decide⟩

/-- C7 (confirmed): for a non-empty word (the filter's inputs are
whitespace-split words, so they are non-empty; Python would raise on the
empty string), the Token Filter accepts exactly the words of length at
least 2 that start with `-`, are not the bare `-`, and do not end in one
of the characters of `NON_OPTS_CHARS`; being a plain function of the
word, it has no failure modes. -/
theorem c7_token_filter (word : Str) (hw : word ≠ []) :
    is_option_token word = true ↔
      (2 ≤ word.length ∧ word.head! = '-' ∧ word ≠ ['-'] ∧
        word.getLast! ∉ NON_OPTS_CHARS) := by
  cases word with
  | nil => exact absurd rfl hw
  | cons c cs =>
    cases cs with
    | nil =>
      constructor
      · intro h
        simp only [is_option_token, Bool.and_eq_true, decide_eq_true_eq,
          Bool.not_eq_true', decide_eq_false_iff_not] at h
        obtain ⟨⟨h1, h2⟩, _⟩ := h
        simp only [List.head!] at h1
        exact absurd (by rw [h1]) h2
      · intro h
        exact absurd h.1 (by simp)
    | cons d ds =>
      simp only [is_option_token, Bool.and_eq_true, decide_eq_true_eq,
        Bool.not_eq_true', decide_eq_false_iff_not]
      constructor
      · rintro ⟨⟨h1, h2⟩, h3⟩
        exact ⟨by simp, h1, h2, h3⟩
      · rintro ⟨_, h1, h2, h3⟩
        exact ⟨⟨h1, h2⟩, h3⟩

/-- C7 witness: the filter accepts `-i`, which satisfies all four
conditions. -/
theorem c7_token_filter_w :
    is_option_token (str "-i") = true ↔
      (2 ≤ (str "-i").length ∧ (str "-i").head! = '-' ∧ str "-i" ≠ ['-'] ∧
        (str "-i").getLast! ∉ NON_OPTS_CHARS) :=
  c7_token_filter (str "-i") (by decide)

lemma get_aix_soup_missed_cons (fetch : Fetch) (cmd : Str) (v : Nat) (vs : List Nat)
    (h : probe_missed (fetch (aix_url v cmd)) = true) :
    get_aix_soup fetch cmd (v :: vs) =
      ((get_aix_soup fetch cmd vs).1, aix_url v cmd :: (get_aix_soup fetch cmd vs).2) := by
  have hs := get_soup_missed fetch (aix_volume_template v) cmd (by simpa [aix_url] using h)
  cases hrec : get_aix_soup fetch cmd vs with
  | mk r lg => simp [get_aix_soup, hs, hrec, aix_url]

lemma get_aix_soup_found_cons (fetch : Fetch) (cmd : Str) (v : Nat) (vs : List Nat) (p : Page)
    (hf : fetch (aix_url v cmd) = .response p)
    (hst : 200 ≤ p.status ∧ p.status ≤ 299)
    (hnb : aix_volume_template v ≠ FREEBSD_MAN_PAGES) :
    get_aix_soup fetch cmd (v :: vs) = (.ok (some p.soup), [aix_url v cmd]) := by
  have hs := get_soup_found fetch (aix_volume_template v) cmd p (by simpa [aix_url] using hf)
    hst hnb
  simp [get_aix_soup, hs, aix_url]

/-- C9 (confirmed): the AIX adapter probes volumes 1..6 in increasing
order and stops at the first volume whose fetch succeeds: when volumes
1-3 miss (non-2xx) and volume 4 succeeds, exactly the volume 1, 2, 3 and
4 URLs are fetched, in that order, and the result is not `NotFound`; and
when all six volumes miss, all six URLs are fetched in order and the
result is `NotFound`. -/
theorem c9_aix_probe :
    (∀ (fetch : Fetch) (cmd : Str),
      (∀ v ∈ ([1, 2, 3] : List Nat), probe_missed (fetch (aix_url v cmd)) = true) →
      page_found_of (fetch (aix_url 4 cmd)) = true →
      (get_aix_opts fetch cmd).2 =
          [aix_url 1 cmd, aix_url 2 cmd, aix_url 3 cmd, aix_url 4 cmd] ∧
        (get_aix_opts fetch cmd).1 ≠ .ok none) ∧
    (∀ (fetch : Fetch) (cmd : Str),
      (∀ v ∈ ([1, 2, 3, 4, 5, 6] : List Nat), probe_missed (fetch (aix_url v cmd)) = true) →
      get_aix_opts fetch cmd = (.ok none,
        [aix_url 1 cmd, aix_url 2 cmd, aix_url 3 cmd,
          aix_url 4 cmd, aix_url 5 cmd, aix_url 6 cmd])) := by
  constructor
  · intro fetch cmd hmiss hfound
    cases hf4 : fetch (aix_url 4 cmd) with
    | transportError => rw [hf4] at hfound; simp [page_found_of] at hfound
    | response p =>
      rw [hf4] at hfound
      simp only [page_found_of, Bool.and_eq_true, decide_eq_true_eq] at hfound
      have h4 := get_aix_soup_found_cons fetch cmd 4 [5, 6] p hf4 hfound (by decide)
      have h3 := get_aix_soup_missed_cons fetch cmd 3 [4, 5, 6] (hmiss 3 (by simp))
      have h2 := get_aix_soup_missed_cons fetch cmd 2 [3, 4, 5, 6] (hmiss 2 (by simp))
      have h1 := get_aix_soup_missed_cons fetch cmd 1 [2, 3, 4, 5, 6] (hmiss 1 (by simp))
      have hsoup : get_aix_soup fetch cmd [1, 2, 3, 4, 5, 6] =
          (.ok (some p.soup), [aix_url 1 cmd, aix_url 2 cmd, aix_url 3 cmd, aix_url 4 cmd]) := by
        rw [h1, h2, h3, h4]
      cases hFl : find_opts_aix p.soup (str "Flags") with
      | error e => simp [get_aix_opts, hsoup, hFl]
      | ok s1 =>
        cases hEx : find_opts_aix p.soup (str "Expression Terms") with
        | error e => simp [get_aix_opts, hsoup, hFl, hEx]
        | ok s2 => simp [get_aix_opts, hsoup, hFl, hEx]
  · intro fetch cmd hmiss
    exact get_aix_opts_missed fetch cmd hmiss

/-- C9 witness: under the oracle where only AIX volume 4 has the `grep`
page, the fetch log is exactly the volume 1-4 URLs in order and the
result is not `NotFound`; under the all-404 oracle all six volume URLs
are fetched and the result is `NotFound`. -/
theorem c9_aix_probe_w :
    ((get_aix_opts fetchAix4 (str "grep")).2 =
        [aix_url 1 (str "grep"), aix_url 2 (str "grep"), aix_url 3 (str "grep"),
          aix_url 4 (str "grep")] ∧
      (get_aix_opts fetchAix4 (str "grep")).1 ≠ .ok none) ∧
    get_aix_opts fetch404 (str "ls") = (.ok none,
      [aix_url 1 (str "ls"), aix_url 2 (str "ls"), aix_url 3 (str "ls"),
        aix_url 4 (str "ls"), aix_url 5 (str "ls"), aix_url 6 (str "ls")]) :=
  ⟨c9_aix_probe.1 fetchAix4 (str "grep") (by decide) (by decide),
    c9_aix_probe.2 fetch404 (str "ls") (fun v _ => rfl)⟩

lemma mem_if_singleton {c : Prop} [Decidable c] {x p : String} :
    p ∈ (if c then [x] else ([] : List String)) ↔ p = x ∧ c := by
  split_ifs with h
  · simp [h]
  · simp [h]

lemma mem_not_present_list (l f p9 s : Option (Finset Str)) (opt : Str) (p : String) :
    p ∈ not_present_list l f p9 s opt ↔
      ((p = "GNU/Linux" ∧ (optsTruthy l = true ∧ opt ∉ l.getD ∅)) ∨
        (p = "FreeBSD" ∧ (optsTruthy f = true ∧ opt ∉ f.getD ∅)) ∨
        (p = "Plan 9" ∧ (optsTruthy p9 = true ∧ opt ∉ p9.getD ∅)) ∨
        (p = "Solaris" ∧ (optsTruthy s = true ∧ opt ∉ s.getD ∅))) := by
  simp only [not_present_list, List.mem_append, mem_if_singleton]
  tauto

lemma optsTruthy_iff (o : Option (Finset Str)) (opt : Str) :
    (optsTruthy o = true ∧ opt ∉ o.getD ∅) ↔ ∃ s, o = some s ∧ s ≠ ∅ ∧ opt ∉ s := by
  cases o with
  | none => simp [optsTruthy]
  | some s =>
    by_cases hs : s = ∅
    · simp [optsTruthy, hs]
    · simp [optsTruthy, hs]

/-- C1 (amended): in a query that produces a report, each requested
option's "unsupported on" list contains exactly the platforms among
GNU/Linux, FreeBSD, Plan 9 and Solaris — never AIX or POSIX.7 — whose
adapter returned `Found` with a *non-empty* OptionSet not containing the
token. Platforms that returned `NotFound` are excluded, and so are
platforms that returned `Found` with an empty OptionSet (the truthiness
test collapses the two at this layer). -/
theorem c1_per_option_lists (fetch : Fetch) (name : Str) (rest : List Str) (r : Report)
    (h : input_step fetch (name :: rest) = .ok (.report r))
    (opt : Str) (lst : List String) (hmem : (opt, lst) ∈ r.opt_lines) (p : String) :
    p ∈ lst ↔
      ((p = "GNU/Linux" ∧ ∃ s d, (get_linux_opts fetch name).1 = .ok (some s, d) ∧
          s ≠ ∅ ∧ opt ∉ s) ∨
        (p = "FreeBSD" ∧ ∃ s, (get_freebsd_opts fetch name).1 = .ok (some s) ∧
          s ≠ ∅ ∧ opt ∉ s) ∨
        (p = "Plan 9" ∧ ∃ s, (get_plan_9_opts fetch name).1 = .ok (some s) ∧
          s ≠ ∅ ∧ opt ∉ s) ∨
        (p = "Solaris" ∧ ∃ s, (get_solaris_opts fetch name).1 = .ok (some s) ∧
          s ≠ ∅ ∧ opt ∉ s)) := by
  cases hL : (get_linux_opts fetch name).1 with
  | error e => simp [input_step, hL] at h
  | ok lv =>
    obtain ⟨lo, de⟩ := lv
    cases hF : (get_freebsd_opts fetch name).1 with
    | error e => simp [input_step, hL, hF] at h
    | ok fo =>
      cases hS : (get_solaris_opts fetch name).1 with
      | error e => simp [input_step, hL, hF, hS] at h
      | ok so =>
        cases hA : (get_aix_opts fetch name).1 with
        | error e => simp [input_step, hL, hF, hS, hA] at h
        | ok ao =>
          by_cases hall : lo = none ∧ fo = none ∧ so = none ∧ ao = none
          · simp [input_step, hL, hF, hS, hA, hall] at h
          · cases h9 : (get_plan_9_opts fetch name).1 with
            | error e => simp [input_step, hL, hF, hS, hA, hall, h9] at h
            | ok p9o =>
              cases hx : (get_posix_7_opts fetch name).1 with
              | error e => simp [input_step, hL, hF, hS, hA, hall, h9, hx] at h
              | ok pxo =>
                simp only [input_step, hL, hF, hS, hA, h9, hx] at h
                rw [if_neg hall] at h
                simp only [Except.ok.injEq, QueryOutcome.report.injEq] at h
                subst h
                simp only [mkReport, List.mem_map] at hmem
                obtain ⟨a, _, heq⟩ := hmem
                simp only [Prod.mk.injEq] at heq
                obtain ⟨rfl, rfl⟩ := heq
                rw [mem_not_present_list]
                simp [optsTruthy_iff, hL, hF, h9, hS]

/-- C1 witness: applying the per-option characterization to the `mv -z`
query under the only-Linux oracle, for the platform `Plan 9`. -/
theorem c1_per_option_lists_w :
    (("Plan 9" : String) ∈ (["GNU/Linux"] : List String)) ↔
      ((("Plan 9" : String) = "GNU/Linux" ∧ ∃ s d,
          (get_linux_opts fetchMv (str "mv")).1 = .ok (some s, d) ∧ s ≠ ∅ ∧ str "-z" ∉ s) ∨
        (("Plan 9" : String) = "FreeBSD" ∧ ∃ s,
          (get_freebsd_opts fetchMv (str "mv")).1 = .ok (some s) ∧ s ≠ ∅ ∧ str "-z" ∉ s) ∨
        (("Plan 9" : String) = "Plan 9" ∧ ∃ s,
          (get_plan_9_opts fetchMv (str "mv")).1 = .ok (some s) ∧ s ≠ ∅ ∧ str "-z" ∉ s) ∨
        (("Plan 9" : String) = "Solaris" ∧ ∃ s,
          (get_solaris_opts fetchMv (str "mv")).1 = .ok (some s) ∧ s ≠ ∅ ∧ str "-z" ∉ s)) :=
  c1_per_option_lists fetchMv (str "mv") [str "-z"] reportMv (by decide) (str "-z")
    ["GNU/Linux"] (by decide) "Plan 9"

/-- C1 counterexample: for `mv -z` under the only-Linux oracle, the
Plan 9 adapter returns `Found` with the empty OptionSet and `-z` is a
requested token absent from it, so the claim requires `Plan 9` on the
`-z` unsupported list; the produced list is `["GNU/Linux"]` only (the
truthiness test drops the empty `Found` set, and AIX/POSIX.7 are never
consulted). -/
theorem c1_counterexample :
    (get_plan_9_opts fetchMv (str "mv")).1 = .ok (some (∅ : Finset Str)) ∧
    input_step fetchMv [str "mv", str "-z"] = .ok (.report reportMv) ∧
    reportMv.opt_lines = [(str "-z", ["GNU/Linux"])] :=
  ⟨rfl, by decide, by decide⟩

lemma wf_of_parts {t : Str} (h1 : t.head! = '-') (h2 : t ≠ ['-'])
    (h3 : t.getLast! ∉ NON_OPTS_CHARS) : wf_option_token t := by
  refine ⟨?_, h1, h2, h3⟩
  match t, h1, h2 with
  | [], h1, _ => exact absurd h1 (by decide)
  | [c], h1, h2 =>
    have hc : c = '-' := h1
    exact absurd (by rw [hc]) h2
  | a :: b :: r, _, _ => simp

lemma mem_removeFalsePositives {s : Finset Str} {t : Str} (h : t ∈ removeFalsePositives s) :
    t ∈ s ∧ t.getLast! ∉ NON_OPTS_CHARS := by
  simpa [removeFalsePositives] using h

lemma wf_of_mem_filtered {l : List Str} {t : Str}
    (h : t ∈ removeFalsePositives
      ((l.filter (fun x => x.head! = '-' && x ≠ ['-'])).toFinset)) :
    wf_option_token t := by
  obtain ⟨hmem, hlast⟩ := mem_removeFalsePositives h
  rw [List.mem_toFinset, List.mem_filter] at hmem
  obtain ⟨-, hp⟩ := hmem
  simp only [Bool.and_eq_true, decide_eq_true_eq] at hp
  exact wf_of_parts hp.1 hp.2 hlast

lemma wf_of_mem_filtered_guard {l : List Str} {t : Str}
    (h : t ∈ removeFalsePositives
      ((l.filter (fun x => x ≠ [] && x.head! = '-' && x ≠ ['-'])).toFinset)) :
    wf_option_token t := by
  obtain ⟨hmem, hlast⟩ := mem_removeFalsePositives h
  rw [List.mem_toFinset, List.mem_filter] at hmem
  obtain ⟨-, hp⟩ := hmem
  simp only [Bool.and_eq_true, decide_eq_true_eq] at hp
  exact wf_of_parts hp.1.2 hp.2 hlast

lemma find_opts_freebsd_wf (soup : Soup) : ∀ t ∈ find_opts_freebsd soup, wf_option_token t := by
  intro t ht
  exact wf_of_mem_filtered ht

lemma find_opts_posix_7_wf (soup : Soup) : ∀ t ∈ find_opts_posix_7 soup, wf_option_token t := by
  intro t ht
  exact wf_of_mem_filtered_guard ht

lemma find_opts_solaris_wf (soup : Soup) : ∀ t ∈ find_opts_solaris soup, wf_option_token t := by
  intro t ht
  exact wf_of_mem_filtered_guard ht

lemma find_opts_linux_wf {soup : Soup} {header : Str} {s : Finset Str}
    (h : find_opts_linux soup header = .ok s) : ∀ t ∈ s, wf_option_token t := by
  unfold find_opts_linux at h
  dsimp only at h
  split at h
  · rw [Except.ok.injEq] at h
    subst h
    simp
  · split at h
    · exact absurd h (by simp)
    · split at h
      · exact absurd h (by simp)
      · rw [Except.ok.injEq] at h
        subst h
        intro t ht
        exact wf_of_mem_filtered ht

lemma find_opts_plan_9_wf {soup : Soup} {s : Finset Str}
    (h : find_opts_plan_9 soup = .ok s) : ∀ t ∈ s, wf_option_token t := by
  unfold find_opts_plan_9 at h
  dsimp only at h
  split at h
  · exact absurd h (by simp)
  · split at h
    · exact absurd h (by simp)
    · split at h
      · split at h
        · split at h
          · exact absurd h (by simp)
          · split at h
            · rw [Except.ok.injEq] at h
              subst h
              intro t ht
              obtain ⟨hmem, hlast⟩ := mem_removeFalsePositives ht
              rw [Finset.mem_union] at hmem
              rcases hmem with hm | hm
              · rw [List.mem_toFinset, List.mem_filter] at hm
                simp only [Bool.and_eq_true, decide_eq_true_eq] at hm
                exact wf_of_parts hm.2.1 hm.2.2 hlast
              · rw [List.mem_toFinset, List.mem_map] at hm
                obtain ⟨c, -, rfl⟩ := hm
                exact wf_of_parts rfl (by simp) hlast
            · rw [Except.ok.injEq] at h
              subst h
              intro t ht
              exact wf_of_mem_filtered ht
        · exact absurd h (by simp)
      · rw [Except.ok.injEq] at h
        subst h
        intro t ht
        exact wf_of_mem_filtered ht

lemma aixCandidates_wf {flags_sourceline : Nat} {next_header_sourceline : Option Nat}
    {cands : List El} {l : List Str} (h : aixCandidates flags_sourceline next_header_sourceline cands = .ok l) :
    ∀ t ∈ l, t.head! = '-' ∧ t ≠ ['-'] := by
  induction cands generalizing l with
  | nil =>
    unfold aixCandidates at h
    rw [Except.ok.injEq] at h
    subst h
    simp
  | cons c cs ih =>
    unfold aixCandidates at h
    split at h
    · split at h
      · exact absurd h (by simp)
      · split at h
        · split at h
          · exact absurd h (by simp)
          · rename_i t0 ts htext
            split at h
            · rename_i hcnd
              split at h
              · exact absurd h (by simp)
              · rename_i rest hrec
                rw [Except.ok.injEq] at h
                subst h
                intro t ht
                rcases List.mem_cons.mp ht with rfl | hm
                · refine ⟨?_, hcnd.2⟩
                  rw [htext]
                  exact hcnd.1 ▸ rfl
                · exact ih hrec t hm
            · exact ih h
        · exact ih h
    · exact ih h

lemma find_opts_aix_wf {soup : Soup} {sectionLabel : Str} {s : Finset Str}
    (h : find_opts_aix soup sectionLabel = .ok s) : ∀ t ∈ s, wf_option_token t := by
  unfold find_opts_aix at h
  dsimp only at h
  split at h
  · rw [Except.ok.injEq] at h
    subst h
    simp
  · split at h
    · exact absurd h (by simp)
    · rename_i opts hcands
      rw [Except.ok.injEq] at h
      subst h
      intro t ht
      obtain ⟨hmem, hlast⟩ := mem_removeFalsePositives ht
      rw [List.mem_toFinset] at hmem
      obtain ⟨h1, h2⟩ := aixCandidates_wf hcands t hmem
      exact wf_of_parts h1 h2 hlast

lemma get_freebsd_opts_wf {fetch : Fetch} {cmd : Str} {s : Finset Str} {log : List Str}
    (h : get_freebsd_opts fetch cmd = (.ok (some s), log)) : ∀ t ∈ s, wf_option_token t := by
  unfold get_freebsd_opts at h
  split at h
  · exact absurd h (by simp)
  · exact absurd h (by simp)
  · exact absurd h (by simp)
  · simp only [Prod.mk.injEq, Except.ok.injEq, Option.some.injEq] at h
    obtain ⟨h1, -⟩ := h
    subst h1
    exact find_opts_freebsd_wf _

lemma get_posix_7_opts_wf {fetch : Fetch} {cmd : Str} {s : Finset Str} {log : List Str}
    (h : get_posix_7_opts fetch cmd = (.ok (some s), log)) : ∀ t ∈ s, wf_option_token t := by
  unfold get_posix_7_opts at h
  split at h
  · exact absurd h (by simp)
  · exact absurd h (by simp)
  · exact absurd h (by simp)
  · simp only [Prod.mk.injEq, Except.ok.injEq, Option.some.injEq] at h
    obtain ⟨h1, -⟩ := h
    subst h1
    exact find_opts_posix_7_wf _

lemma get_solaris_opts_wf {fetch : Fetch} {cmd : Str} {s : Finset Str} {log : List Str}
    (h : get_solaris_opts fetch cmd = (.ok (some s), log)) : ∀ t ∈ s, wf_option_token t := by
  unfold get_solaris_opts at h
  split at h
  · exact absurd h (by simp)
  · exact absurd h (by simp)
  · simp only [Prod.mk.injEq, Except.ok.injEq, Option.some.injEq] at h
    obtain ⟨h1, -⟩ := h
    subst h1
    exact find_opts_solaris_wf _
  · split at h
    · exact absurd h (by simp)
    · exact absurd h (by simp)
    · exact absurd h (by simp)
    · simp only [Prod.mk.injEq, Except.ok.injEq, Option.some.injEq] at h
      obtain ⟨h1, -⟩ := h
      subst h1
      exact find_opts_solaris_wf _

lemma get_plan_9_opts_wf {fetch : Fetch} {cmd : Str} {s : Finset Str} {log : List Str}
    (h : get_plan_9_opts fetch cmd = (.ok (some s), log)) : ∀ t ∈ s, wf_option_token t := by
  unfold get_plan_9_opts at h
  split at h
  · simp only [Prod.mk.injEq, Except.ok.injEq, Option.some.injEq] at h
    obtain ⟨h1, -⟩ := h
    subst h1
    intro t ht
    simp only [Finset.mem_insert, Finset.mem_singleton] at ht
    rcases ht with rfl | rfl | rfl <;>
      exact ⟨by decide, by decide, by decide, by decide⟩
  · split at h
    · simp only [Prod.mk.injEq, Except.ok.injEq, Option.some.injEq] at h
      obtain ⟨h1, -⟩ := h
      subst h1
      intro t ht
      simp only [Finset.mem_insert, Finset.mem_singleton] at ht
      rcases ht with rfl | rfl | rfl <;>
        exact ⟨by decide, by decide, by decide, by decide⟩
    · split at h
      · simp only [Prod.mk.injEq, Except.ok.injEq, Option.some.injEq] at h
        obtain ⟨h1, -⟩ := h
        subst h1
        simp
      · split at h
        · exact absurd h (by simp)
        · exact absurd h (by simp)
        · exact absurd h (by simp)
        · split at h
          · exact absurd h (by simp)
          · rename_i s0 hfind
            simp only [Prod.mk.injEq, Except.ok.injEq, Option.some.injEq] at h
            obtain ⟨h1, -⟩ := h
            subst h1
            exact find_opts_plan_9_wf hfind

lemma get_linux_opts_wf {fetch : Fetch} {cmd : Str} {s : Finset Str} {d : Option Str}
    {log : List Str} (h : get_linux_opts fetch cmd = (.ok (some s, d), log)) :
    ∀ t ∈ s, wf_option_token t := by
  unfold get_linux_opts at h
  split at h
  · exact absurd h (by simp)
  · exact absurd h (by simp)
  · exact absurd h (by simp)
  · dsimp only at h
    split at h
    · exact absurd h (by simp)
    · split at h
      · exact absurd h (by simp)
      · rename_i s1 hopts
        split at h
        · exact absurd h (by simp)
        · rename_i s2 hexpr
          simp only [Prod.mk.injEq, Except.ok.injEq, Option.some.injEq] at h
          obtain ⟨⟨h1, -⟩, -⟩ := h
          subst h1
          intro t ht
          rw [Finset.union_assoc, Finset.empty_union, Finset.mem_union] at ht
          rcases ht with hm | hm
          · exact find_opts_linux_wf hopts t hm
          · exact find_opts_linux_wf hexpr t hm

lemma get_aix_opts_wf {fetch : Fetch} {cmd : Str} {s : Finset Str} {log : List Str}
    (h : get_aix_opts fetch cmd = (.ok (some s), log)) : ∀ t ∈ s, wf_option_token t := by
  unfold get_aix_opts at h
  split at h
  · exact absurd h (by simp)
  · exact absurd h (by simp)
  · split at h
    · exact absurd h (by simp)
    · rename_i s1 hflags
      split at h
      · exact absurd h (by simp)
      · rename_i s2 hterms
        simp only [Prod.mk.injEq, Except.ok.injEq, Option.some.injEq] at h
        obtain ⟨h1, -⟩ := h
        subst h1
        intro t ht
        rw [Finset.union_assoc, Finset.empty_union, Finset.mem_union] at ht
        rcases ht with hm | hm
        · exact find_opts_aix_wf hflags t hm
        · exact find_opts_aix_wf hterms t hm

/-- C10 (confirmed): for every adapter and command name, whenever the
result is `Found`, every member of the returned OptionSet satisfies the
OptionToken well-formedness predicate (starts with `-`, length at least
2, not the bare `-`, does not end in one of `.,;)]}!`) — including the
hardcoded Plan 9 override sets, the Plan 9 synopsis-cluster expansions,
and the whole-text POSIX.7 `dt` and Solaris `tt` tokens. -/
theorem c10_wf_tokens (fetch : Fetch) (cmd : Str) :
    (∀ s d log, get_linux_opts fetch cmd = (.ok (some s, d), log) →
      ∀ t ∈ s, wf_option_token t) ∧
    (∀ s log, get_freebsd_opts fetch cmd = (.ok (some s), log) →
      ∀ t ∈ s, wf_option_token t) ∧
    (∀ s log, get_solaris_opts fetch cmd = (.ok (some s), log) →
      ∀ t ∈ s, wf_option_token t) ∧
    (∀ s log, get_plan_9_opts fetch cmd = (.ok (some s), log) →
      ∀ t ∈ s, wf_option_token t) ∧
    (∀ s log, get_posix_7_opts fetch cmd = (.ok (some s), log) →
      ∀ t ∈ s, wf_option_token t) ∧
    (∀ s log, get_aix_opts fetch cmd = (.ok (some s), log) →
      ∀ t ∈ s, wf_option_token t) :=
  ⟨fun _ _ _ h => get_linux_opts_wf h, fun _ _ h => get_freebsd_opts_wf h,
    fun _ _ h => get_solaris_opts_wf h, fun _ _ h => get_plan_9_opts_wf h,
    fun _ _ h => get_posix_7_opts_wf h, fun _ _ h => get_aix_opts_wf h⟩

/-- C10 witness: the Plan 9 adapter's hardcoded result for `cp` is
`Found`, and its member `-g` is a well-formed option token. -/
theorem c10_wf_tokens_w : wf_option_token (str "-g") :=
  (c10_wf_tokens fetch404 (str "cp")).2.2.2.1 {str "-g", str "-u", str "-x"} [] rfl
    (str "-g") (by decide)
